import Mathlib

/-
Verification of the podcast-summarization agent.

The Python sources (src/agent.py, src/deploy/app.py) are shallowly embedded
below.  Python strings are modelled as `List Char`; the two external network
services (the transcript backend and the LLM completion endpoint) are
modelled as explicit environments whose calls return `Except`, mirroring
raised exceptions versus returned values.  The regular-expression searches of
the source are embedded as explicit leftmost scans; the Python regexes in
play have mutually exclusive alternatives at any given start position, so a
first-match scan is equivalent to the regex engine's search.
-/

namespace PodcastAgent

abbrev Str := List Char

/-- Characters of a Lean string literal, used to write the source's string
constants. -/
def chars (s : String) : Str := s.data

/-- The character class of the source's regexes: a-zA-Z0-9_- (ASCII, as in a
Python character-class range). -/
def isIdChar (c : Char) : Bool := c.isAlpha || c.isDigit || c == '_' || c == '-'

/-- ASCII whitespace, modelling the characters the source's `strip` and the
regex class backslash-s act on (the Unicode-only whitespace code points are
outside the inputs this development evaluates). -/
def isPySpace (c : Char) : Bool :=
  c == ' ' || c == '\t' || c == '\n' || c == '\r' || c == '\x0b' || c == '\x0c'

/-- Consume the literal `lit` from the front of `s`, returning the rest. -/
def eatLit : Str → Str → Option Str
  | [], s => some s
  | _ :: _, [] => none
  | l :: ls, c :: cs => if l = c then eatLit ls cs else none

/-- Consume exactly `n` identifier-class characters, returning them and the
rest; models the regex piece `[a-zA-Z0-9_-]` repeated a fixed number of
times. -/
def takeIdChars : Nat → Str → Option (Str × Str)
  | 0, s => some ([], s)
  | _ + 1, [] => none
  | n + 1, c :: cs =>
      if isIdChar c then (takeIdChars n cs).map (fun p => (c :: p.1, p.2)) else none

/-- Leftmost regex search: try the position matcher `f` at every start
position, left to right. -/
def searchFrom (f : Str → Option Str) : Str → Option Str
  | [] => f []
  | c :: cs =>
      match f (c :: cs) with
      | some r => some r
      | none => searchFrom f cs

/-- Position matcher for the first pattern of `_extract_video_id`:
`(?:v=|/v/|youtu\.be/)([a-zA-Z0-9_-]` repeated 11 `)`.  The three
alternatives start with distinct characters, so trying them in order at one
position is exactly the regex alternation. -/
def pat1At (s : Str) : Option Str :=
  match eatLit ('v' :: '=' :: []) s with
  | some rest => (takeIdChars 11 rest).map (fun p => p.1)
  | none =>
    match eatLit ('/' :: 'v' :: '/' :: []) s with
    | some rest => (takeIdChars 11 rest).map (fun p => p.1)
    | none =>
      match eatLit ('y' :: 'o' :: 'u' :: 't' :: 'u' :: '.' :: 'b' :: 'e' :: '/' :: []) s with
      | some rest => (takeIdChars 11 rest).map (fun p => p.1)
      | none => none

/-- Position matcher for the second pattern of `_extract_video_id`:
`(?:embed/)([a-zA-Z0-9_-]` repeated 11 `)`. -/
def pat2At (s : Str) : Option Str :=
  match eatLit ('e' :: 'm' :: 'b' :: 'e' :: 'd' :: '/' :: []) s with
  | some rest => (takeIdChars 11 rest).map (fun p => p.1)
  | none => none

/-- Third pattern of `_extract_video_id`: `^([a-zA-Z0-9_-]` repeated 11 `)$`.
A Python `$` without MULTILINE also matches just before a single trailing
newline. -/
def pat3 (s : Str) : Option Str :=
  match takeIdChars 11 s with
  | some (id, rest) => if rest.isEmpty || rest == ['\n'] then some id else none
  | none => none

/-- WHATWG C0-control-or-space class stripped from the start of a URL by
`urllib.parse.urlsplit`. -/
def isC0OrSpace (c : Char) : Bool := c.toNat ≤ 32

/-- The preprocessing `urlsplit` applies before parsing: strip leading
C0-control-or-space characters, then remove every tab, CR and LF. -/
def preClean (s : Str) : Str :=
  (s.dropWhile isC0OrSpace).filter (fun c => !(c == '\t' || c == '\r' || c == '\n'))

/-- Truncate at the first `#`, as `urlsplit` removes the fragment before
looking for the query. -/
def upToHash (s : Str) : Str := s.takeWhile (fun c => c != '#')

/-- Everything after the first occurrence of `c`, if any. -/
def afterFirst (c : Char) : Str → Option Str
  | [] => none
  | x :: xs => if x = c then some xs else afterFirst c xs

/-- The `query` component produced by `urllib.parse.urlparse`: the text after
the first `?` of the fragment-stripped, cleaned URL (empty when there is no
`?`). -/
def pyQuery (url : Str) : Str :=
  match afterFirst '?' (upToHash (preClean url)) with
  | some q => q
  | none => []

/-- Value of an ASCII hex digit. -/
def hexVal (c : Char) : Option Nat :=
  if '0' ≤ c ∧ c ≤ '9' then some (c.toNat - '0'.toNat)
  else if 'a' ≤ c ∧ c ≤ 'f' then some (c.toNat - 'a'.toNat + 10)
  else if 'A' ≤ c ∧ c ≤ 'F' then some (c.toNat - 'A'.toNat + 10)
  else none

/-- Percent-decoding as in `urllib.parse.unquote`, restricted to ASCII
escapes: a valid `%hh` pair with value below 128 decodes to that character,
an invalid pair is kept literally and scanning resumes right after the `%`.
Escapes of bytes 128 and above (which Python feeds to a UTF-8 decode) are
kept literally; no input of this development contains them.  The `fuel`
argument only makes the recursion structural; it starts at the input length
and each step consumes at least one character, so it never runs out. -/
def pctDecodeAux : Nat → Str → Str
  | 0, s => s
  | _ + 1, [] => []
  | fuel + 1, '%' :: rest =>
    match rest with
    | c1 :: c2 :: cs =>
      match hexVal c1, hexVal c2 with
      | some h, some l =>
          if 16 * h + l < 128 then Char.ofNat (16 * h + l) :: pctDecodeAux fuel cs
          else '%' :: c1 :: c2 :: pctDecodeAux fuel cs
      | _, _ => '%' :: pctDecodeAux fuel rest
    | _ => '%' :: pctDecodeAux fuel rest
  | fuel + 1, c :: rest => c :: pctDecodeAux fuel rest

def pctDecode (s : Str) : Str := pctDecodeAux s.length s

/-- The `+`-to-space replacement `parse_qsl` applies before unquoting. -/
def plusToSpace (s : Str) : Str := s.map (fun c => if c = '+' then ' ' else c)

/-- Split on `&`, as `parse_qsl` splits the query string. -/
def splitAmp : Str → List Str
  | [] => [[]]
  | '&' :: cs => [] :: splitAmp cs
  | c :: cs =>
    match splitAmp cs with
    | [] => [[c]]
    | g :: gs => (c :: g) :: gs

/-- Split a chunk at its first `=`, as `parse_qsl` does. -/
def splitEq : Str → Option (Str × Str)
  | [] => none
  | '=' :: cs => some ([], cs)
  | c :: cs => (splitEq cs).map (fun p => (c :: p.1, p.2))

/-- The name-value pairs `parse_qsl` yields with its default options: empty
chunks and chunks without `=` are skipped, as are pairs whose raw value is
empty; names and values are plus-replaced and percent-decoded. -/
def qsPairs (q : Str) : List (Str × Str) :=
  (splitAmp q).filterMap (fun chunk =>
    if chunk.isEmpty then none
    else
      match splitEq chunk with
      | none => none
      | some (n, v) =>
          if v.isEmpty then none
          else some (pctDecode (plusToSpace n), pctDecode (plusToSpace v)))

/-- `parse_qs(query)['v'][0]`: the first value whose decoded name is `v`. -/
def firstV (q : Str) : Option Str :=
  ((qsPairs q).find? (fun p => p.1 == ('v' :: []))).map (fun p => p.2)

/-- The query-parameter fallback of `_extract_video_id`: parse the input as a
URL and return the first `v` value when the query is non-empty and carries
one. -/
def queryParamV (url : Str) : Option Str :=
  let q := pyQuery url
  if q.isEmpty then none else firstV q

/-- `PodcastSummariser._extract_video_id` (src/agent.py lines 61-85): the
three regex patterns in order, each searched over the whole input, then the
query-parameter fallback. -/
def extract_video_id (url : Str) : Option Str :=
  match searchFrom pat1At url with
  | some r => some r
  | none =>
    match searchFrom pat2At url with
    | some r => some r
    | none =>
      match pat3 url with
      | some r => some r
      | none => queryParamV url

/-! ## The HTTP-facing URL extractor (src/deploy/app.py, `extract_url`) -/

/-- The `https?://` head shared by the three URL patterns: the optional `s`
is greedy but forced by the following literal `://`, so the pattern is
equivalent to one of two literals. -/
def eatHttp (s : Str) : Option (Str × Str) :=
  match eatLit (chars "https://") s with
  | some rest => some (chars "https://", rest)
  | none =>
    match eatLit (chars "http://") s with
    | some rest => some (chars "http://", rest)
    | none => none

/-- The optional `(?:www\.)?` piece.  Consuming a present `www.` loses no
match because the literal required right after does not start with `www.`. -/
def eatWww (s : Str) : Str × Str :=
  match eatLit (chars "www.") s with
  | some rest => (chars "www.", rest)
  | none => ([], s)

/-- Greedy run of `[a-zA-Z0-9_-]`, as matched by a trailing `+`. -/
def idSpan (s : Str) : Str × Str := (s.takeWhile isIdChar, s.dropWhile isIdChar)

/-- The optional `(?:&[^\s]*)?` tail of the watch-URL pattern: if an `&`
follows, it and the greedy run of non-whitespace are part of the match. -/
def ampTail (s : Str) : Str :=
  match s with
  | '&' :: cs => '&' :: cs.takeWhile (fun c => !isPySpace c)
  | _ => []

/-- Position matcher for
`(https?://(?:www\.)?youtube\.com/watch\?v=[a-zA-Z0-9_-]+(?:&[^\s]*)?)`. -/
def patAAt (s : Str) : Option Str :=
  match eatHttp s with
  | none => none
  | some (proto, r1) =>
    let ww := eatWww r1
    match eatLit (chars "youtube.com/watch?v=") ww.2 with
    | none => none
    | some r3 =>
      let run := idSpan r3
      if run.1.isEmpty then none
      else some (proto ++ ww.1 ++ chars "youtube.com/watch?v=" ++ run.1 ++ ampTail run.2)

/-- Position matcher for `(https?://youtu\.be/[a-zA-Z0-9_-]+)`. -/
def patBAt (s : Str) : Option Str :=
  match eatHttp s with
  | none => none
  | some (proto, r1) =>
    match eatLit (chars "youtu.be/") r1 with
    | none => none
    | some r2 =>
      let run := idSpan r2
      if run.1.isEmpty then none else some (proto ++ chars "youtu.be/" ++ run.1)

/-- Position matcher for `(https?://(?:www\.)?youtube\.com/embed/[a-zA-Z0-9_-]+)`. -/
def patCAt (s : Str) : Option Str :=
  match eatHttp s with
  | none => none
  | some (proto, r1) =>
    let ww := eatWww r1
    match eatLit (chars "youtube.com/embed/") ww.2 with
    | none => none
    | some r3 =>
      let run := idSpan r3
      if run.1.isEmpty then none
      else some (proto ++ ww.1 ++ chars "youtube.com/embed/" ++ run.1)

/-- `re.match(r'^[a-zA-Z0-9_-]` repeated 11 `$', text)`: the whole text is a
bare identifier (a Python `$` also accepts one trailing newline). -/
def bareId11 (s : Str) : Bool :=
  match takeIdChars 11 s with
  | some (_, rest) => rest.isEmpty || rest == ['\n']
  | none => false

/-- `extract_url` (src/deploy/app.py lines 87-107): the three URL patterns
in order, then the bare-identifier whole-string case, which synthesizes a
watch URL embedding the text itself. -/
def extract_url (text : Str) : Option Str :=
  match searchFrom patAAt text with
  | some u => some u
  | none =>
    match searchFrom patBAt text with
    | some u => some u
    | none =>
      match searchFrom patCAt text with
      | some u => some u
      | none =>
        if bareId11 text then some (chars "https://youtube.com/watch?v=" ++ text)
        else none

/-! ## Transcript fetching, summary generation, orchestration -/

/-- One available caption track of the external transcript service: its
language code, whether it is auto-generated, and the outcome of fetching its
timed entries (each entry contributing its text field). -/
structure Track where
  lang : Str
  generated : Bool
  fetchResult : Except Str (List Str)

/-- The external transcript service as seen by one run: the outcome of
listing the tracks, and the outcome of the last-resort direct fetch. -/
structure TranscriptEnv where
  listTracks : Except Str (List Track)
  directFetch : Except Str (List Str)

/-- The external completion endpoint as seen by one run: from the system and
user messages to the first choice's content, or a raised error's text. -/
structure LLMEnv where
  completion : Str → Str → Except Str Str

/-- `' '.join(text_parts)`. -/
def spaceJoin : List Str → Str
  | [] => []
  | [x] => x
  | x :: y :: ys => x ++ ' ' :: spaceJoin (y :: ys)

/-- Modelled from the spec: the track finders of the out-of-scope transcript
library (`find_manually_created_transcript`, `find_generated_transcript`,
`find_transcript`), specified at the interface boundary as: for each
language code in order, the first listed track with that code satisfying the
kind predicate. -/
def findLangBy (p : Track → Bool) : List Str → List Track → Option Track
  | [], _ => none
  | l :: ls, tl =>
    match tl.find? (fun t => p t && t.lang == l) with
    | some t => some t
    | none => findLangBy p ls tl

/-- `transcript_list.find_manually_created_transcript(['en'])`. -/
def findManual (tl : List Track) : Option Track :=
  findLangBy (fun t => !t.generated) [chars "en"] tl

/-- `transcript_list.find_generated_transcript(['en'])`. -/
def findGenerated (tl : List Track) : Option Track :=
  findLangBy (fun t => t.generated) [chars "en"] tl

/-- `transcript_list.find_transcript(['en', 'en-US', 'en-GB'])`: any track
with one of the three codes. -/
def findAnyEnglish (tl : List Track) : Option Track :=
  findLangBy (fun _ => true) [chars "en", chars "en-US", chars "en-GB"] tl

/-- The nested try/except selection of `_get_transcript` (src/agent.py lines
94-102): manual English first, else generated English, else any English
variant. -/
def selectTrack (tl : List Track) : Option Track :=
  match findManual tl with
  | some t => some t
  | none =>
    match findGenerated tl with
    | some t => some t
    | none => findAnyEnglish tl

/-- The last-resort branch of `_get_transcript`:
`YouTubeTranscriptApi.get_transcript(video_id)` joined, or failure. -/
def directFallback (env : TranscriptEnv) : Option Str :=
  match env.directFetch with
  | Except.ok entries => some (spaceJoin entries)
  | Except.error _ => none

/-- `PodcastSummariser._get_transcript` (src/agent.py lines 87-118): list
tracks, select by the preference chain, fetch and join; any raised error
here (listing failed, nothing selectable, fetch failed) falls to the direct
fetch. -/
def get_transcript (env : TranscriptEnv) : Option Str :=
  match env.listTracks with
  | Except.ok tl =>
    match selectTrack tl with
    | some t =>
      match t.fetchResult with
      | Except.ok entries => some (spaceJoin entries)
      | Except.error _ => directFallback env
    | none => directFallback env
  | Except.error _ => directFallback env

/-- The fixed system message of `_generate_summary`. -/
def systemPrompt : Str := chars
  "You are a podcast summarization expert. Given a podcast transcript, create a well-structured summary that captures the key information.\n\nYour summary should include:\n1. **Title & Overview** - A brief description of what the podcast is about\n2. **Key Topics** - Main subjects discussed (bulleted list)\n3. **Main Takeaways** - The most important insights and conclusions\n4. **Notable Quotes** - Any memorable or impactful statements (if present)\n5. **Summary** - A 2-3 paragraph executive summary\n\nBe concise but comprehensive. Focus on actionable insights and key information."

/-- The user message of `_generate_summary`, an f-string around the URL and
the (possibly truncated) transcript. -/
def userPrompt (url transcript : Str) : Str :=
  chars "Please summarize the following podcast transcript:\n\nSource URL: "
    ++ url ++ chars "\n\nTranscript:\n" ++ transcript

/-- `max_chars = 100000` of `_generate_summary`. -/
def max_chars : Nat := 100000

/-- The literal truncation marker appended past `max_chars`. -/
def truncMarker : Str := chars "\n\n[Transcript truncated...]"

/-- The truncation step of `_generate_summary` (src/agent.py lines 123-125). -/
def truncateTranscript (t : Str) : Str :=
  if t.length > max_chars then t.take max_chars ++ truncMarker else t

/-- The fixed head of the error string `_generate_summary` returns when the
completion call raises. -/
def errGenMarker : Str := chars "Error generating summary: "

/-- `PodcastSummariser._generate_summary` (src/agent.py lines 120-158):
truncate, build the two messages, call the endpoint; a raised error becomes
a returned string.  The fixed model id, temperature 0.3 and the 2000-token
cap are configuration of the call and are not needed by any claim. -/
def generate_summary (env : LLMEnv) (transcript url : Str) : Str :=
  match env.completion systemPrompt (userPrompt url (truncateTranscript transcript)) with
  | Except.ok content => content
  | Except.error e => errGenMarker ++ e

def errNoId : Str := chars "Error: Could not extract video ID from URL"

def errNoTranscript : Str := chars "Error: Could not fetch transcript for this video"

/-- `PodcastSummariser.run` (src/agent.py lines 30-59).  Python truthiness:
both an absent and an empty extraction or transcript take the error
branches. -/
def run (tenv : TranscriptEnv) (lenv : LLMEnv) (podcast_url : Str) : Str :=
  match extract_video_id podcast_url with
  | none => errNoId
  | some vid =>
    if vid.isEmpty then errNoId
    else
      match get_transcript tenv with
      | none => errNoTranscript
      | some transcript =>
        if transcript.isEmpty then errNoTranscript
        else generate_summary lenv transcript podcast_url

/-! ## The HTTP handler (src/deploy/app.py, `handle_command`) -/

/-- The response model of the HTTP route. -/
structure AgentResponse where
  success : Bool
  result : Option Str
  error : Option Str

/-- The process state `handle_command` depends on: whether the credential is
present (after the optional header override), plus the two external
services. -/
structure AppEnv where
  apiKeyPresent : Bool
  tenv : TranscriptEnv
  lenv : LLMEnv

def errMissingCommand : Str := chars "Missing command"

def errNoUrl : Str :=
  chars "No YouTube URL found in command. Please provide a YouTube URL."

/-- The `ValueError` text of the `PodcastSummariser` constructor, returned
by the handler's except branch. -/
def errNoApiKey : Str := chars "OPENROUTER_API_KEY environment variable not set"

/-- `command.strip()` over ASCII whitespace. -/
def pyStrip (s : Str) : Str :=
  ((s.dropWhile isPySpace).reverse.dropWhile isPySpace).reverse

/-- `result.startswith("Error:")`. -/
def startsWithError (s : Str) : Bool := (eatLit (chars "Error:") s).isSome

/-- `handle_command` (src/deploy/app.py lines 43-84): strip, reject an empty
command, extract the URL, construct the agent (its missing-credential
`ValueError` becomes a failure response), run it, and wrap the result
according to the `startswith("Error:")` test. -/
def handle_command (env : AppEnv) (command : Str) : AgentResponse :=
  let cmd := pyStrip command
  if cmd.isEmpty then ⟨false, none, some errMissingCommand⟩
  else
    match extract_url cmd with
    | none => ⟨false, none, some errNoUrl⟩
    | some url =>
      if !env.apiKeyPresent then ⟨false, none, some errNoApiKey⟩
      else
        let result := run env.tenv env.lenv url
        if startsWithError result then ⟨false, none, some result⟩
        else ⟨true, some result, none⟩

/-! ## Lemmas about the scanning primitives -/

/-- An identifier: exactly 11 characters of the class `[a-zA-Z0-9_-]`, the
invariant the spec states for VideoReference. -/
def isId11 (s : Str) : Bool := s.length == 11 && s.all isIdChar

theorem isId11_iff (s : Str) : isId11 s = true ↔ s.length = 11 ∧ s.all isIdChar = true := by
  simp [isId11]

theorem eatLit_append (lit t : Str) : eatLit lit (lit ++ t) = some t := by
  induction lit with
  | nil => rfl
  | cons l ls ih => simp [eatLit, ih]

theorem eatLit_some_eq (lit : Str) :
    ∀ s r : Str, eatLit lit s = some r → s = lit ++ r := by
  induction lit with
  | nil => intro s r h; simp [eatLit] at h; simp [h]
  | cons l ls ih =>
    intro s r h
    cases s with
    | nil => simp [eatLit] at h
    | cons c cs =>
      by_cases hc : l = c
      · subst hc
        simp [eatLit] at h
        simpa using ih cs r h
      · simp [eatLit, hc] at h

theorem eatLit_none_of_anyNonId (lit : Str) :
    ∀ s : Str, lit.any (fun c => !isIdChar c) = true → s.all isIdChar = true →
      eatLit lit s = none := by
  induction lit with
  | nil => intro s hl _; simp at hl
  | cons l ls ih =>
    intro s hl hs
    cases s with
    | nil => rfl
    | cons c cs =>
      by_cases hc : l = c
      · subst hc
        rw [List.all_cons, Bool.and_eq_true] at hs
        have hls : ls.any (fun c => !isIdChar c) = true := by
          rw [List.any_cons, Bool.or_eq_true] at hl
          rcases hl with hl | hl
          · rw [hs.1] at hl; exact absurd hl (by simp)
          · exact hl
        simp [eatLit, ih cs hls hs.2]
      · simp [eatLit, hc]

theorem takeIdChars_sound :
    ∀ (n : Nat) (s id rest : Str), takeIdChars n s = some (id, rest) →
      id.length = n ∧ id.all isIdChar = true ∧ s = id ++ rest := by
  intro n
  induction n with
  | zero =>
    intro s id rest h
    simp [takeIdChars] at h
    simp [h.1, h.2]
  | succ m ih =>
    intro s id rest h
    cases s with
    | nil => simp [takeIdChars] at h
    | cons c cs =>
      by_cases hc : isIdChar c
      · simp [takeIdChars, hc] at h
        obtain ⟨p, hp, hid⟩ := h
        obtain ⟨hlen, hall, heq⟩ := ih cs p rest hp
        subst hid
        refine ⟨by simp [hlen], ?_, by simp [heq]⟩
        rw [List.all_cons, Bool.and_eq_true]
        exact ⟨hc, hall⟩
      · simp [takeIdChars, hc] at h

theorem takeIdChars_complete :
    ∀ (id t : Str), id.all isIdChar = true →
      takeIdChars id.length (id ++ t) = some (id, t) := by
  intro id
  induction id with
  | nil => intro t _; rfl
  | cons c cs ih =>
    intro t h
    rw [List.all_cons, Bool.and_eq_true] at h
    simp [takeIdChars, h.1, ih t h.2]

/-- Exactly-11 specialization of completeness, with empty remainder. -/
theorem takeIdChars_exact (id : Str) (h : isId11 id = true) :
    takeIdChars 11 id = some (id, []) := by
  obtain ⟨hlen, hall⟩ := (isId11_iff id).1 h
  have := takeIdChars_complete id [] hall
  rw [List.append_nil, hlen] at this
  exact this

theorem searchFrom_cons_some (f : Str → Option Str) (c : Char) (cs : Str) (r : Str)
    (h : f (c :: cs) = some r) : searchFrom f (c :: cs) = some r := by
  show (match f (c :: cs) with
    | some r => some r
    | none => searchFrom f cs) = some r
  rw [h]

theorem searchFrom_cons_none (f : Str → Option Str) (c : Char) (cs : Str)
    (h : f (c :: cs) = none) : searchFrom f (c :: cs) = searchFrom f cs := by
  show (match f (c :: cs) with
    | some r => some r
    | none => searchFrom f cs) = searchFrom f cs
  rw [h]

theorem searchFrom_none_of_all (p : Char → Bool) (f : Str → Option Str)
    (hf : ∀ t : Str, t.all p = true → f t = none) :
    ∀ s : Str, s.all p = true → searchFrom f s = none := by
  intro s
  induction s with
  | nil => intro h; simpa [searchFrom] using hf [] h
  | cons c cs ih =>
    intro h
    have h' := h
    rw [List.all_cons, Bool.and_eq_true] at h'
    rw [searchFrom_cons_none f c cs (hf (c :: cs) h)]
    exact ih h'.2

theorem searchFrom_sound (f : Str → Option Str) (P : Str → Prop)
    (hf : ∀ t r : Str, f t = some r → P r) :
    ∀ s r : Str, searchFrom f s = some r → P r := by
  intro s
  induction s with
  | nil => intro r h; exact hf [] r h
  | cons c cs ih =>
    intro r h
    cases hm : f (c :: cs) with
    | some r1 =>
      rw [searchFrom_cons_some f c cs r1 hm] at h
      cases h
      exact hf (c :: cs) r hm
    | none =>
      rw [searchFrom_cons_none f c cs hm] at h
      exact ih r h

theorem optionMap_fst_some {o : Option (Str × Str)} {r : Str}
    (h : o.map (fun p => p.1) = some r) : ∃ rest, o = some (r, rest) := by
  cases o with
  | none => simp at h
  | some p =>
    simp at h
    exact ⟨p.2, by rw [← h]⟩

/-! ## Soundness of the identifier patterns -/

theorem pat1At_sound (s r : Str) (h : pat1At s = some r) : isId11 r = true := by
  unfold pat1At at h
  rcases h1 : eatLit ('v' :: '=' :: []) s with _ | rest1
  all_goals rw [h1] at h
  case some =>
    obtain ⟨rest, hr⟩ := optionMap_fst_some h
    obtain ⟨hlen, hall, _⟩ := takeIdChars_sound 11 rest1 r rest hr
    exact (isId11_iff r).2 ⟨hlen, hall⟩
  rcases h2 : eatLit ('/' :: 'v' :: '/' :: []) s with _ | rest2
  all_goals rw [h2] at h
  case some =>
    obtain ⟨rest, hr⟩ := optionMap_fst_some h
    obtain ⟨hlen, hall, _⟩ := takeIdChars_sound 11 rest2 r rest hr
    exact (isId11_iff r).2 ⟨hlen, hall⟩
  rcases h3 : eatLit ('y' :: 'o' :: 'u' :: 't' :: 'u' :: '.' :: 'b' :: 'e' :: '/' :: []) s
    with _ | rest3
  all_goals rw [h3] at h
  case some =>
    obtain ⟨rest, hr⟩ := optionMap_fst_some h
    obtain ⟨hlen, hall, _⟩ := takeIdChars_sound 11 rest3 r rest hr
    exact (isId11_iff r).2 ⟨hlen, hall⟩
  exact absurd h (by simp)

theorem pat2At_sound (s r : Str) (h : pat2At s = some r) : isId11 r = true := by
  unfold pat2At at h
  rcases h1 : eatLit ('e' :: 'm' :: 'b' :: 'e' :: 'd' :: '/' :: []) s with _ | rest1
  all_goals rw [h1] at h
  case some =>
    obtain ⟨rest, hr⟩ := optionMap_fst_some h
    obtain ⟨hlen, hall, _⟩ := takeIdChars_sound 11 rest1 r rest hr
    exact (isId11_iff r).2 ⟨hlen, hall⟩
  exact absurd h (by simp)

theorem pat3_sound (s r : Str) (h : pat3 s = some r) : isId11 r = true := by
  unfold pat3 at h
  split at h
  next id rest heq =>
    split at h
    · cases h
      obtain ⟨hlen, hall, _⟩ := takeIdChars_sound 11 s r rest heq
      exact (isId11_iff r).2 ⟨hlen, hall⟩
    · exact absurd h (by simp)
  next => exact absurd h (by simp)

/-! ## Failure of the patterns on identifier-only strings -/

theorem pat1At_none_of_allId (t : Str) (h : t.all isIdChar = true) : pat1At t = none := by
  have e1 := eatLit_none_of_anyNonId ('v' :: '=' :: []) t (by decide) h
  have e2 := eatLit_none_of_anyNonId ('/' :: 'v' :: '/' :: []) t (by decide) h
  have e3 := eatLit_none_of_anyNonId
    ('y' :: 'o' :: 'u' :: 't' :: 'u' :: '.' :: 'b' :: 'e' :: '/' :: []) t (by decide) h
  unfold pat1At
  rw [e1, e2, e3]

theorem pat2At_none_of_allId (t : Str) (h : t.all isIdChar = true) : pat2At t = none := by
  have e1 := eatLit_none_of_anyNonId ('e' :: 'm' :: 'b' :: 'e' :: 'd' :: '/' :: []) t
    (by decide) h
  unfold pat2At
  rw [e1]

theorem eatHttp_none_of_allId (t : Str) (h : t.all isIdChar = true) : eatHttp t = none := by
  have e1 := eatLit_none_of_anyNonId (chars "https://") t (by decide) h
  have e2 := eatLit_none_of_anyNonId (chars "http://") t (by decide) h
  unfold eatHttp
  rw [e1, e2]

theorem patAAt_none_of_allId (t : Str) (h : t.all isIdChar = true) : patAAt t = none := by
  unfold patAAt
  rw [eatHttp_none_of_allId t h]

theorem patBAt_none_of_allId (t : Str) (h : t.all isIdChar = true) : patBAt t = none := by
  unfold patBAt
  rw [eatHttp_none_of_allId t h]

theorem patCAt_none_of_allId (t : Str) (h : t.all isIdChar = true) : patCAt t = none := by
  unfold patCAt
  rw [eatHttp_none_of_allId t h]

/-! ## Claims -/

/-- C1: the claim says every category (b)/(c)/(d) failure is returned by the
HTTP handler as success=false with the message in the error field.  The
handler detects errors with `startswith("Error:")`; the input-error and
retrieval-error strings match it (second and third conjuncts), but the
generation-error string starts with `Error generating summary:` — no colon
after `Error` — so it escapes the check and is returned as success=true with
the error text in the result field (first conjunct): the code contradicts
the evident intent of its own error check. -/
theorem C1_generation_error_not_wrapped :
    handle_command
        ⟨true,
         ⟨Except.ok [⟨chars "en", false, Except.ok [chars "hi"]⟩], Except.error (chars "x")⟩,
         ⟨fun _ _ => Except.error (chars "boom")⟩⟩
        (chars "https://youtu.be/abc12345678")
      = ⟨true, some (chars "Error generating summary: boom"), none⟩ ∧
    handle_command
        ⟨true,
         ⟨Except.error (chars "x"), Except.error (chars "x")⟩,
         ⟨fun _ _ => Except.error (chars "boom")⟩⟩
        (chars "https://youtu.be/abc12345678")
      = ⟨false, none, some errNoTranscript⟩ ∧
    handle_command
        ⟨true,
         ⟨Except.ok [⟨chars "en", false, Except.ok [chars "hi"]⟩], Except.error (chars "x")⟩,
         ⟨fun _ _ => Except.error (chars "boom")⟩⟩
        (chars "https://youtu.be/ab")
      = ⟨false, none, some errNoId⟩ :=
  ⟨rfl, rfl, rfl⟩

/-- C2 counterexample: the claim asserts every successful extraction returns
11 identifier characters, including the query-string fallback; but on the
input `?v=abc` the fallback returns `abc`, which is 3 characters. -/
theorem C2_query_fallback_counterexample :
    extract_video_id (chars "?v=abc") = some (chars "abc") ∧
    isId11 (chars "abc") = false := by decide

/-- C2 amended: every successful extraction either returns exactly 11
identifier-class characters (the three regex pattern paths) or is the first
`v` query-parameter value returned verbatim by the fallback, which may have
any length. -/
theorem C2_success_shape (s r : Str) (h : extract_video_id s = some r) :
    isId11 r = true ∨ queryParamV s = some r := by
  cases h1 : searchFrom pat1At s with
  | some r1 =>
    simp only [extract_video_id, h1, Option.some.injEq] at h
    subst h
    exact Or.inl (searchFrom_sound pat1At (fun x => isId11 x = true) pat1At_sound s r1 h1)
  | none =>
    cases h2 : searchFrom pat2At s with
    | some r2 =>
      simp only [extract_video_id, h1, h2, Option.some.injEq] at h
      subst h
      exact Or.inl (searchFrom_sound pat2At (fun x => isId11 x = true) pat2At_sound s r2 h2)
    | none =>
      cases h3 : pat3 s with
      | some r3 =>
        simp only [extract_video_id, h1, h2, h3, Option.some.injEq] at h
        subst h
        exact Or.inl (pat3_sound s r3 h3)
      | none =>
        simp only [extract_video_id, h1, h2, h3] at h
        exact Or.inr h

theorem C2_success_shape_witness :
    isId11 (chars "dQw4w9WgXcQ") = true ∨
      queryParamV (chars "dQw4w9WgXcQ") = some (chars "dQw4w9WgXcQ") :=
  C2_success_shape (chars "dQw4w9WgXcQ") (chars "dQw4w9WgXcQ") (by decide)

/-- C3: the transcript text placed in the prompt is the truncation of the
input; a transcript longer than 100000 characters becomes its first 100000
characters followed by the literal marker, and one of at most 100000
characters is used unmodified. -/
theorem C3_truncation (env : LLMEnv) (t url : Str) :
    generate_summary env t url
      = (match env.completion systemPrompt (userPrompt url (truncateTranscript t)) with
         | Except.ok c => c
         | Except.error e => errGenMarker ++ e) ∧
    (t.length > 100000 → truncateTranscript t = t.take 100000 ++ truncMarker) ∧
    (t.length ≤ 100000 → truncateTranscript t = t) := by
  refine ⟨rfl, ?_, ?_⟩
  · intro h
    unfold truncateTranscript max_chars
    rw [if_pos h]
  · intro h
    unfold truncateTranscript max_chars
    rw [if_neg (by omega)]

theorem C3_truncation_witness :
    (List.replicate 100001 'a').length > 100000 ∧
    truncateTranscript (List.replicate 100001 'a')
      = (List.replicate 100001 'a').take 100000 ++ truncMarker ∧
    truncateTranscript (chars "abc") = chars "abc" :=
  ⟨by rw [List.length_replicate]; omega,
   (C3_truncation ⟨fun _ _ => Except.ok []⟩ (List.replicate 100001 'a') []).2.1
     (by rw [List.length_replicate]; omega),
   (C3_truncation ⟨fun _ _ => Except.ok []⟩ (chars "abc") []).2.2 (by decide)⟩

/-- C7: when the completion call raises, the generator returns the string
`Error generating summary: ` followed by the details, as its value — the
embedding is a total function into strings, so the fault is never
re-raised. -/
theorem C7_error_as_value (env : LLMEnv) (t u e : Str)
    (h : env.completion systemPrompt (userPrompt u (truncateTranscript t))
      = Except.error e) :
    generate_summary env t u = errGenMarker ++ e := by
  unfold generate_summary
  rw [h]

theorem C7_error_as_value_witness :
    generate_summary ⟨fun _ _ => Except.error (chars "boom")⟩ (chars "tr") (chars "u")
      = errGenMarker ++ chars "boom" :=
  C7_error_as_value ⟨fun _ _ => Except.error (chars "boom")⟩ (chars "tr") (chars "u")
    (chars "boom") rfl

/-- C8: when none of the three identifier patterns matches anywhere and the
query fallback yields no `v` parameter, extraction returns the absence value
(the embedding being total, no exception escapes); in particular on the
input `not a url`. -/
theorem C8_no_match_absence (s : Str)
    (h1 : searchFrom pat1At s = none) (h2 : searchFrom pat2At s = none)
    (h3 : pat3 s = none) (h4 : queryParamV s = none) :
    extract_video_id s = none ∧ extract_video_id (chars "not a url") = none := by
  constructor
  · unfold extract_video_id
    rw [h1, h2, h3]
    exact h4
  · decide

theorem C8_no_match_absence_witness :
    extract_video_id (chars "not a url") = none ∧
      extract_video_id (chars "not a url") = none :=
  C8_no_match_absence (chars "not a url") (by decide) (by decide) (by decide) (by decide)

/-- C10: the three URL patterns of the command parser accept identifier runs
of any positive length — a 2-character and a 16-character identifier still
yield the URL — while the bare-identifier whole-string case alone demands
exactly 11 characters (a bare 2- or 12-character string yields absence). -/
theorem C10_embedded_url_any_length :
    extract_url (chars "https://youtu.be/ab") = some (chars "https://youtu.be/ab") ∧
    extract_url (chars "check https://www.youtube.com/embed/abcdefghijklmnop out")
      = some (chars "https://www.youtube.com/embed/abcdefghijklmnop") ∧
    extract_url (chars "ab") = none ∧
    extract_url (chars "abcdefghijkl") = none := by decide

/-- C4: for inputs carrying `v=`, `/v/`, `youtu.be/` or `embed/` followed by
an 11-character identifier, and for a bare 11-character identifier,
extraction returns exactly those 11 characters; in particular on the two
concrete inputs of the spec. -/
theorem C4_pattern_extraction (id : Str) (h : isId11 id = true) :
    extract_video_id ('v' :: '=' :: id) = some id ∧
    extract_video_id ('/' :: 'v' :: '/' :: id) = some id ∧
    extract_video_id ('y' :: 'o' :: 'u' :: 't' :: 'u' :: '.' :: 'b' :: 'e' :: '/' :: id)
      = some id ∧
    extract_video_id ('e' :: 'm' :: 'b' :: 'e' :: 'd' :: '/' :: id) = some id ∧
    extract_video_id id = some id ∧
    extract_video_id (chars "https://www.youtube.com/watch?v=dQw4w9WgXcQ&t=30")
      = some (chars "dQw4w9WgXcQ") ∧
    extract_video_id (chars "dQw4w9WgXcQ") = some (chars "dQw4w9WgXcQ") := by
  have hall : id.all isIdChar = true := ((isId11_iff id).1 h).2
  have htake : takeIdChars 11 id = some (id, []) := takeIdChars_exact id h
  have p1v : pat1At ('v' :: '=' :: id) = some id := by
    have e : pat1At ('v' :: '=' :: id) = (takeIdChars 11 id).map (fun p => p.1) := rfl
    rw [e, htake]
    rfl
  have p1s : pat1At ('/' :: 'v' :: '/' :: id) = some id := by
    have e : pat1At ('/' :: 'v' :: '/' :: id) = (takeIdChars 11 id).map (fun p => p.1) := rfl
    rw [e, htake]
    rfl
  have p1y : pat1At ('y' :: 'o' :: 'u' :: 't' :: 'u' :: '.' :: 'b' :: 'e' :: '/' :: id)
      = some id := by
    have e : pat1At ('y' :: 'o' :: 'u' :: 't' :: 'u' :: '.' :: 'b' :: 'e' :: '/' :: id)
        = (takeIdChars 11 id).map (fun p => p.1) := rfl
    rw [e, htake]
    rfl
  have hslash : pat1At ('/' :: id) = none := by
    have h1 : eatLit ('v' :: '/' :: []) id = none :=
      eatLit_none_of_anyNonId ('v' :: '/' :: []) id (by decide) hall
    have e : pat1At ('/' :: id)
        = (match eatLit ('v' :: '/' :: []) id with
           | some rest => (takeIdChars 11 rest).map (fun p => p.1)
           | none => none) := rfl
    rw [e, h1]
  have np1 : searchFrom pat1At ('e' :: 'm' :: 'b' :: 'e' :: 'd' :: '/' :: id) = none := by
    rw [searchFrom_cons_none pat1At 'e' _ rfl, searchFrom_cons_none pat1At 'm' _ rfl,
        searchFrom_cons_none pat1At 'b' _ rfl, searchFrom_cons_none pat1At 'e' _ rfl,
        searchFrom_cons_none pat1At 'd' _ rfl, searchFrom_cons_none pat1At '/' _ hslash]
    exact searchFrom_none_of_all isIdChar pat1At pat1At_none_of_allId id hall
  have p2e : pat2At ('e' :: 'm' :: 'b' :: 'e' :: 'd' :: '/' :: id) = some id := by
    have e : pat2At ('e' :: 'm' :: 'b' :: 'e' :: 'd' :: '/' :: id)
        = (takeIdChars 11 id).map (fun p => p.1) := rfl
    rw [e, htake]
    rfl
  have np1b : searchFrom pat1At id = none :=
    searchFrom_none_of_all isIdChar pat1At pat1At_none_of_allId id hall
  have np2b : searchFrom pat2At id = none :=
    searchFrom_none_of_all isIdChar pat2At pat2At_none_of_allId id hall
  have p3b : pat3 id = some id := by
    unfold pat3
    rw [htake]
    rfl
  refine ⟨?_, ?_, ?_, ?_, ?_, by decide, by decide⟩
  · unfold extract_video_id
    rw [searchFrom_cons_some pat1At 'v' _ id p1v]
  · unfold extract_video_id
    rw [searchFrom_cons_some pat1At '/' _ id p1s]
  · unfold extract_video_id
    rw [searchFrom_cons_some pat1At 'y' _ id p1y]
  · unfold extract_video_id
    rw [np1, searchFrom_cons_some pat2At 'e' _ id p2e]
  · unfold extract_video_id
    rw [np1b, np2b, p3b]

theorem C4_pattern_extraction_witness :
    extract_video_id ('v' :: '=' :: chars "dQw4w9WgXcQ") = some (chars "dQw4w9WgXcQ") ∧
    extract_video_id ('/' :: 'v' :: '/' :: chars "dQw4w9WgXcQ") = some (chars "dQw4w9WgXcQ") ∧
    extract_video_id
        ('y' :: 'o' :: 'u' :: 't' :: 'u' :: '.' :: 'b' :: 'e' :: '/' :: chars "dQw4w9WgXcQ")
      = some (chars "dQw4w9WgXcQ") ∧
    extract_video_id ('e' :: 'm' :: 'b' :: 'e' :: 'd' :: '/' :: chars "dQw4w9WgXcQ")
      = some (chars "dQw4w9WgXcQ") ∧
    extract_video_id (chars "dQw4w9WgXcQ") = some (chars "dQw4w9WgXcQ") ∧
    extract_video_id (chars "https://www.youtube.com/watch?v=dQw4w9WgXcQ&t=30")
      = some (chars "dQw4w9WgXcQ") ∧
    extract_video_id (chars "dQw4w9WgXcQ") = some (chars "dQw4w9WgXcQ") :=
  C4_pattern_extraction (chars "dQw4w9WgXcQ") (by decide)

/-- C9: the example command yields the short URL and then the identifier
`abc12345678`; and a command that is exactly a bare 11-character identifier
is turned into the synthesized watch URL carrying it. -/
theorem C9_command_to_url (id : Str) (h : isId11 id = true) :
    extract_url (chars "please summarize http://youtu.be/abc12345678 thanks")
      = some (chars "http://youtu.be/abc12345678") ∧
    extract_video_id (chars "http://youtu.be/abc12345678") = some (chars "abc12345678") ∧
    extract_url id = some (chars "https://youtube.com/watch?v=" ++ id) := by
  refine ⟨by decide, by decide, ?_⟩
  have hall : id.all isIdChar = true := ((isId11_iff id).1 h).2
  have na : searchFrom patAAt id = none :=
    searchFrom_none_of_all isIdChar patAAt patAAt_none_of_allId id hall
  have nb : searchFrom patBAt id = none :=
    searchFrom_none_of_all isIdChar patBAt patBAt_none_of_allId id hall
  have nc : searchFrom patCAt id = none :=
    searchFrom_none_of_all isIdChar patCAt patCAt_none_of_allId id hall
  have hbare : bareId11 id = true := by
    unfold bareId11
    rw [takeIdChars_exact id h]
    rfl
  unfold extract_url
  rw [na, nb, nc, hbare]
  rfl

theorem C9_command_to_url_witness :
    extract_url (chars "please summarize http://youtu.be/abc12345678 thanks")
      = some (chars "http://youtu.be/abc12345678") ∧
    extract_video_id (chars "http://youtu.be/abc12345678") = some (chars "abc12345678") ∧
    extract_url (chars "abc12345678")
      = some (chars "https://youtube.com/watch?v=" ++ chars "abc12345678") :=
  C9_command_to_url (chars "abc12345678") (by decide)

/-- C5: track selection prefers a manual English track (even when a
generated English track exists), else a generated English track, else any
track with one of the codes en, en-US, en-GB; and the selected track's
fetched entries are joined by the single-space join. -/
theorem C5_preference_order (tl : List Track) (t : Track) :
    (selectTrack tl = some t ↔
      findManual tl = some t ∨
        (findManual tl = none ∧ (findGenerated tl = some t ∨
          (findGenerated tl = none ∧ findAnyEnglish tl = some t)))) ∧
    (∀ (env : TranscriptEnv) (entries : List Str),
      env.listTracks = Except.ok tl → selectTrack tl = some t →
      t.fetchResult = Except.ok entries →
      get_transcript env = some (spaceJoin entries)) := by
  constructor
  · unfold selectTrack
    cases hm : findManual tl with
    | some m => simp
    | none =>
      cases hg : findGenerated tl with
      | some g => simp
      | none => simp
  · intro env entries hl hs hf
    simp only [get_transcript, hl, hs, hf]

theorem C5_preference_order_witness :
    selectTrack
        [⟨chars "en", true, Except.ok [chars "x"]⟩,
         ⟨chars "en", false, Except.ok [chars "a", chars "b"]⟩]
      = some ⟨chars "en", false, Except.ok [chars "a", chars "b"]⟩ ∧
    get_transcript
        ⟨Except.ok
          [⟨chars "en", true, Except.ok [chars "x"]⟩,
           ⟨chars "en", false, Except.ok [chars "a", chars "b"]⟩],
         Except.error []⟩
      = some (chars "a b") :=
  ⟨(C5_preference_order
      [⟨chars "en", true, Except.ok [chars "x"]⟩,
       ⟨chars "en", false, Except.ok [chars "a", chars "b"]⟩]
      ⟨chars "en", false, Except.ok [chars "a", chars "b"]⟩).1.mpr (Or.inl rfl),
   (C5_preference_order
      [⟨chars "en", true, Except.ok [chars "x"]⟩,
       ⟨chars "en", false, Except.ok [chars "a", chars "b"]⟩]
      ⟨chars "en", false, Except.ok [chars "a", chars "b"]⟩).2
     ⟨Except.ok
        [⟨chars "en", true, Except.ok [chars "x"]⟩,
         ⟨chars "en", false, Except.ok [chars "a", chars "b"]⟩],
       Except.error []⟩
     [chars "a", chars "b"] rfl rfl rfl⟩

/-- C6: a successfully fetched transcript with zero caption entries joins to
the empty string, and the orchestrator treats that empty string as absence:
it returns the retrieval-failure message, for every completion environment
(so generation is never reached). -/
theorem C6_empty_transcript (tenv : TranscriptEnv) (lenv : LLMEnv) (url vid : Str)
    (tl : List Track) (t : Track)
    (hx : extract_video_id url = some vid) (hv : vid ≠ [])
    (hl : tenv.listTracks = Except.ok tl) (hs : selectTrack tl = some t)
    (hf : t.fetchResult = Except.ok []) :
    get_transcript tenv = some [] ∧ run tenv lenv url = errNoTranscript := by
  have hg : get_transcript tenv = some [] := by
    simp only [get_transcript, hl, hs, hf]
    rfl
  have hv' : vid.isEmpty = false := by
    cases vid with
    | nil => exact absurd rfl hv
    | cons a l => rfl
  refine ⟨hg, ?_⟩
  simp only [run, hx, hv', hg]
  rfl

theorem C6_empty_transcript_witness :
    get_transcript ⟨Except.ok [⟨chars "en", false, Except.ok []⟩], Except.error []⟩
      = some [] ∧
    run ⟨Except.ok [⟨chars "en", false, Except.ok []⟩], Except.error []⟩
        ⟨fun _ _ => Except.ok (chars "summary")⟩ (chars "dQw4w9WgXcQ")
      = errNoTranscript :=
  C6_empty_transcript
    ⟨Except.ok [⟨chars "en", false, Except.ok []⟩], Except.error []⟩
    ⟨fun _ _ => Except.ok (chars "summary")⟩
    (chars "dQw4w9WgXcQ") (chars "dQw4w9WgXcQ")
    [⟨chars "en", false, Except.ok []⟩] ⟨chars "en", false, Except.ok []⟩
    (by decide) (by decide) rfl rfl rfl

end PodcastAgent
